import Mathlib

/-!
Verification development for the floor-plan generation, rendering, compliance
and material-estimation pipeline of `backend/server.py`.

Modelling conventions:
* Python strings are modelled as `List Char`; string operations used by the
  source (`str.strip`, `str.split`, `in`, `str.lower`) are given faithful
  recursive definitions below.
* Python numbers (int / float) are modelled as exact rationals `ℚ`; floating
  point rounding is idealised away.
* A Python function that can raise an uncaught exception is modelled as an
  `Option`-valued function, `none` standing for the raised exception.
* `json.loads` is modelled by a recursive-descent parser over the JSON value
  type `Json` below; it covers the JSON subset relevant to this code base
  (objects, arrays, strings with simple escapes, numbers without exponents,
  `null` / `true` / `false`, and insignificant whitespace).
-/

namespace ArchAI

/-- JSON values, the result type of the model of `json.loads`. -/
inductive Json where
  | null : Json
  | bool : Bool → Json
  | num : ℚ → Json
  | str : List Char → Json
  | arr : List Json → Json
  | obj : List (List Char × Json) → Json

/-- Characters treated as whitespace by Python's `str.strip()` (ASCII part). -/
def isPyWs (c : Char) : Bool :=
  c = ' ' || c = '\t' || c = '\n' || c = '\r' || c = '\x0b' || c = '\x0c'

/-- Model of Python `str.lstrip()` (no argument). -/
def stripStart (l : List Char) : List Char := l.dropWhile isPyWs

/-- Model of Python `str.rstrip()` (no argument). -/
def stripEnd (l : List Char) : List Char := (l.reverse.dropWhile isPyWs).reverse

/-- Model of Python `str.strip()` (no argument). -/
def pyStrip (l : List Char) : List Char := stripEnd (stripStart l)

/-- Model of Python's substring test `sep in l`. -/
def hasSub (sep : List Char) : List Char → Bool
  | [] => sep.isEmpty
  | c :: cs => sep.isPrefixOf (c :: cs) || hasSub sep cs

/-- First occurrence of (non-empty) `sep` in `l`: returns the part strictly
before the occurrence together with the part strictly after it. -/
def splitFirst (sep : List Char) : List Char → Option (List Char × List Char)
  | [] => none
  | c :: cs =>
    if sep.isPrefixOf (c :: cs) then some ([], List.drop sep.length (c :: cs))
    else
      match splitFirst sep cs with
      | some (pre, post) => some (c :: pre, post)
      | none => none

/-- Model of Python `l.split(sep)[0]`: the text before the first occurrence of
`sep`, or all of `l` when `sep` does not occur. -/
def split0 (sep l : List Char) : List Char :=
  match splitFirst sep l with
  | some (pre, _) => pre
  | none => l

/-- Model of Python `l.split(sep)[1]`: the text strictly between the first
occurrence of `sep` and the next one (or the end).  The source only evaluates
this under a guard `sep in l`, so the `none` branch below is unreachable there;
it is given the harmless value `l`. -/
def split1 (sep l : List Char) : List Char :=
  match splitFirst sep l with
  | some (_, post) => split0 sep post
  | none => l

/-- The three-backtick fence marker. -/
def tickMark : List Char := "```".toList

/-- The tagged fence marker. -/
def tickJsonMark : List Char := "```json".toList

/-- Model of the markdown-fence cleaning performed on the model output in
`generate_floor_plan_ai` (both the Gemini and the OpenAI branch run the same
code):

```python
if '```json' in result_text:
    result_text = result_text.split('```json')[1].split('```')[0].strip()
elif '```' in result_text:
    result_text = result_text.split('```')[1].split('```')[0].strip()
```
-/
def clean_fences (t : List Char) : List Char :=
  if hasSub tickJsonMark t then pyStrip (split0 tickMark (split1 tickJsonMark t))
  else if hasSub tickMark t then pyStrip (split0 tickMark (split1 tickMark t))
  else t

/-!
Exact rational arithmetic.  The Batteries library marks `Rat.add`, `Rat.mul`,
`Rat.inv` and `Rat.sub` `@[irreducible]`, which prevents kernel evaluation of
concrete instances; the pipeline below therefore computes with the following
`mkRat`-based operations, proved equal to the standard ones in the lemma
section (`qAdd_eq`, `qMul_eq`, `qDiv_eq`, `qMax_eq`).
-/

/-- Exact rational addition (kernel-computable form of `a + b`). -/
def qAdd (a b : ℚ) : ℚ := mkRat (a.num * b.den + b.num * a.den) (a.den * b.den)

/-- Exact rational multiplication (kernel-computable form of `a * b`). -/
def qMul (a b : ℚ) : ℚ := mkRat (a.num * b.num) (a.den * b.den)

/-- Exact rational inverse (kernel-computable form of `a⁻¹`). -/
def qInv (a : ℚ) : ℚ := Rat.divInt (a.den : Int) a.num

/-- Exact rational division (kernel-computable form of `a / b`). -/
def qDiv (a b : ℚ) : ℚ := qMul a (qInv b)

/-- Python's binary `max` (used by `max()` over a non-empty list): keeps the
current value on ties. -/
def qMax (a b : ℚ) : ℚ := if a < b then b else a

/-- JSON insignificant whitespace (RFC 8259). -/
def isJsonWs (c : Char) : Bool :=
  c = ' ' || c = '\t' || c = '\n' || c = '\r'

/-- Skip JSON whitespace. -/
def skipWs (l : List Char) : List Char := l.dropWhile isJsonWs

/-- Drop leading JSON whitespace. -/
def jsonStripStart (l : List Char) : List Char := l.dropWhile isJsonWs

/-- Drop trailing JSON whitespace. -/
def jsonStripEnd (l : List Char) : List Char := (l.reverse.dropWhile isJsonWs).reverse

/-- Strip surrounding JSON whitespace (`' '`, `'\t'`, `'\n'`, `'\r'`) — the
only characters CPython's `json.loads` tolerates around a document.  Note
this is strictly smaller than Python's `str.strip()` set (`isPyWs`), which
also removes `'\x0b'` and `'\x0c'`: `json.loads` raises on those. -/
def jsonStrip (l : List Char) : List Char := jsonStripEnd (jsonStripStart l)

/-- Decimal digit test. -/
def isDigitCh (c : Char) : Bool := '0' ≤ c && c ≤ '9'

/-- Value of a decimal digit character. -/
def digitVal (c : Char) : Nat := c.toNat - '0'.toNat

/-- Natural number denoted by a list of decimal digit characters. -/
def digitsToNat (l : List Char) : Nat := l.foldl (fun acc c => acc * 10 + digitVal c) 0

/-- Parse a JSON number (optional minus, integer digits, optional fraction;
exponents are not used by this code base and are omitted from the model). -/
def parseNum (l : List Char) : Option (ℚ × List Char) :=
  let (neg, l1) := match l with
    | '-' :: rest => (true, rest)
    | _ => (false, l)
  let ip := l1.takeWhile isDigitCh
  let l2 := l1.dropWhile isDigitCh
  if ip = [] then none
  else
    let (q, rest) : ℚ × List Char :=
      match l2 with
      | '.' :: l3 =>
        let fp := l3.takeWhile isDigitCh
        let l4 := l3.dropWhile isDigitCh
        (mkRat (digitsToNat ip * 10 ^ fp.length + digitsToNat fp) (10 ^ fp.length), l4)
      | _ => (mkRat (digitsToNat ip) 1, l2)
    some (if neg then -q else q, rest)

/-- Map a JSON escape character to the character it denotes (`\uXXXX` escapes
are not used by this code base and are omitted from the model). -/
def unescape (c : Char) : Option Char :=
  if c = '"' then some '"'
  else if c = '\\' then some '\\'
  else if c = '/' then some '/'
  else if c = 'b' then some '\x08'
  else if c = 'f' then some '\x0c'
  else if c = 'n' then some '\n'
  else if c = 'r' then some '\r'
  else if c = 't' then some '\t'
  else none

/-- Parse the body of a JSON string after the opening quote; returns the
string contents and the remainder after the closing quote. -/
def parseStr : List Char → Option (List Char × List Char)
  | [] => none
  | '"' :: rest => some ([], rest)
  | '\\' :: rest =>
    match rest with
    | [] => none
    | e :: rest2 =>
      match unescape e, parseStr rest2 with
      | some ch, some (s, r) => some (ch :: s, r)
      | _, _ => none
  | c :: rest =>
    match parseStr rest with
    | some (s, r) => some (c :: s, r)
    | none => none

mutual

/-- Parse one JSON value (fuelled recursion; the fuel is sized by the caller so
that it never runs out on inputs the parser accepts). -/
def parseVal : Nat → List Char → Option (Json × List Char)
  | 0, _ => none
  | fuel + 1, l =>
    match skipWs l with
    | 'n' :: 'u' :: 'l' :: 'l' :: rest => some (.null, rest)
    | 't' :: 'r' :: 'u' :: 'e' :: rest => some (.bool true, rest)
    | 'f' :: 'a' :: 'l' :: 's' :: 'e' :: rest => some (.bool false, rest)
    | '"' :: rest =>
      match parseStr rest with
      | some (s, r) => some (.str s, r)
      | none => none
    | '[' :: rest =>
      match parseArrItems fuel rest true with
      | some (xs, r) => some (.arr xs, r)
      | none => none
    | '\x7b' :: rest =>
      match parseObjItems fuel rest true with
      | some (kvs, r) => some (.obj kvs, r)
      | none => none
    | l' =>
      match parseNum l' with
      | some (q, r) => some (.num q, r)
      | none => none

/-- Parse the items of a JSON array after `[` (or after a comma when
`first = false`), up to and including the closing `]`. -/
def parseArrItems : Nat → List Char → Bool → Option (List Json × List Char)
  | 0, _, _ => none
  | fuel + 1, l, first =>
    match skipWs l with
    | ']' :: rest => if first then some ([], rest) else none
    | l' =>
      match parseVal fuel l' with
      | some (v, r) =>
        match skipWs r with
        | ',' :: rest =>
          match parseArrItems fuel rest false with
          | some (xs, r2) => some (v :: xs, r2)
          | none => none
        | ']' :: rest => some ([v], rest)
        | _ => none
      | none => none

/-- Parse the members of a JSON object after the opening brace (or after a
comma when `first = false`), up to and including the closing brace. -/
def parseObjItems : Nat → List Char → Bool → Option (List (List Char × Json) × List Char)
  | 0, _, _ => none
  | fuel + 1, l, first =>
    match skipWs l with
    | '\x7d' :: rest => if first then some ([], rest) else none
    | '"' :: rest =>
      match parseStr rest with
      | some (k, r) =>
        match skipWs r with
        | ':' :: r2 =>
          match parseVal fuel r2 with
          | some (v, r3) =>
            match skipWs r3 with
            | ',' :: rest2 =>
              match parseObjItems fuel rest2 false with
              | some (kvs, r4) => some ((k, v) :: kvs, r4)
              | none => none
            | '\x7d' :: rest2 => some ([(k, v)], rest2)
            | _ => none
          | none => none
        | _ => none
      | none => none
    | _ => none

end

/-- Model of Python `json.loads`: strips the surrounding JSON whitespace
that `json.loads` tolerates around a document (`' '`, `'\t'`, `'\n'`,
`'\r'` only — any other character at either end makes the decode fail),
parses one JSON value and requires the input to be exhausted.  `none` models
a raised `json.JSONDecodeError`. -/
def json_loads (s : List Char) : Option Json :=
  let t := jsonStrip s
  match parseVal (2 * t.length + 2) t with
  | some (v, rest) => if rest = [] then some v else none
  | none => none

/-- Model of Python dict lookup on a dict built by `json.loads`: with duplicate
keys the last occurrence wins, as in CPython. -/
def jsonGet (kvs : List (List Char × Json)) (k : List Char) : Option Json :=
  match kvs with
  | [] => none
  | (k', v) :: rest =>
    match jsonGet rest k with
    | some v' => some v'
    | none => if k' = k then some v else none

/-- Project a JSON value to an object; `none` models the `TypeError` /
`AttributeError` Python raises when a dict is required. -/
def asObj : Json → Option (List (List Char × Json))
  | .obj kvs => some kvs
  | _ => none

/-- Project a JSON value to an array. -/
def asArr : Json → Option (List Json)
  | .arr xs => some xs
  | _ => none

/-- Project a JSON value to a number. -/
def asNum : Json → Option ℚ
  | .num q => some q
  | _ => none

/-- Project a JSON value to a string. -/
def asStr : Json → Option (List Char)
  | .str s => some s
  | _ => none

/-- Decimal digit character for a value < 10. -/
def digitCh (n : Nat) : Char := Char.ofNat ('0'.toNat + n)

/-- Decimal digits of a natural number (auxiliary, fuelled by the number
itself, which bounds the digit count). -/
def natDigitsAux : Nat → Nat → List Char → List Char
  | 0, _, acc => acc
  | fuel + 1, n, acc =>
    if n < 10 then digitCh n :: acc
    else natDigitsAux fuel (n / 10) (digitCh (n % 10) :: acc)

/-- Decimal digits of a natural number. -/
def natDigits (n : Nat) : List Char := natDigitsAux (n + 1) n []

/-- Decimal rendering of an integer. -/
def intStr (i : Int) : List Char :=
  (if i < 0 then ['-'] else []) ++ natDigits i.natAbs

/-- Digits after the decimal point of `r / d` (0 ≤ r < d), up to `fuel`
digits, stopping when the expansion terminates. -/
def fracDigits : Nat → Nat → Nat → List Char
  | 0, _, _ => []
  | fuel + 1, r, d =>
    if r = 0 then []
    else digitCh (r * 10 / d) :: fracDigits fuel (r * 10 % d) d

/-- Decimal rendering of a rational, modelling how Python's f-string renders
the numbers appearing in this code base (integers without a fractional part;
the int/float repr distinction is idealised away). -/
def numStr (q : ℚ) : List Char :=
  (if q < 0 then ['-'] else []) ++
    (natDigits (q.num.natAbs / q.den) ++
      (if q.num.natAbs % q.den = 0 then []
       else '.' :: fracDigits 30 (q.num.natAbs % q.den) q.den))

/-- Model of Python's `format(x, '.1f')`: one digit after the decimal point.
Ties are rounded half-up here (CPython rounds half-to-even; no value formatted
by this code base hits a tie). -/
def fix1 (q : ℚ) : List Char :=
  let n : Int := Rat.floor (qAdd (qMul q 10) (mkRat 1 2))
  (if n < 0 then ['-'] else []) ++ natDigits (n.natAbs / 10) ++ ['.', digitCh (n.natAbs % 10)]

/-- Model of Python `str.lower()` (ASCII). -/
def pyLower (l : List Char) : List Char := l.map Char.toLower

/-- `RoomRequirement` of `server.py`. -/
structure RoomRequirement where
  name : List Char
  quantity : Int
  minArea : Option ℚ := none

/-- `AdjacencyRule` of `server.py`. -/
structure AdjacencyRule where
  room1 : List Char
  room2 : List Char
  preferred : Bool := true

/-- `SiteConstraints` of `server.py`. -/
structure SiteConstraints where
  width : Option ℚ := none
  length : Option ℚ := none
  dimensions : Option (List Char) := none
  fileName : Option (List Char) := none

/-- `CulturalParameters` of `server.py` (the open `preferences` mapping is
modelled as a JSON object). -/
structure CulturalParameters where
  type : Option (List Char) := none
  preferences : Option (List (List Char × Json)) := none

/-- `ComplianceCheck` of `server.py`. -/
structure ComplianceCheck where
  category : List Char
  rule : List Char
  status : List Char
  message : List Char
  suggestion : Option (List Char) := none
deriving DecidableEq

/-- `MaterialItem` of `server.py`. -/
structure MaterialItem where
  name : List Char
  quantity : ℚ
  unit : List Char
  estimatedCost : Option ℚ := none
deriving DecidableEq

/-- `FloorPlanData` of `server.py`.  `rooms` is `List[Dict[str, Any]]` in the
source and is kept as raw JSON values here; `dimensions` is a string-keyed
dict of numbers. -/
structure FloorPlanData where
  svgContent : List Char
  rooms : List Json
  totalArea : ℚ
  dimensions : List (List Char × ℚ)

/-- `ProjectConfig` of `server.py`. -/
structure ProjectConfig where
  projectType : List Char
  siteConstraints : SiteConstraints
  requiredSpaces : List RoomRequirement
  adjacencyRules : Option (List AdjacencyRule) := some []
  orientation : Option (List (List Char × List Char)) := some []
  culturalParams : Option CulturalParameters := none
  municipalCode : Option (List Char) := none

/-- `Project` of `server.py`.  The creation/update timestamps are omitted: no
modelled operation reads them.  `selectedPlanIndex` is a Python `int` and is
modelled as `Int` (Python list indexing accepts negative indices). -/
structure Project where
  id : List Char
  name : List Char
  config : ProjectConfig
  floorPlans : List FloorPlanData := []
  selectedPlanIndex : Int := 0
  complianceChecks : List ComplianceCheck := []
  materials : List MaterialItem := []

/-- Model of Python list indexing `l[i]` (negative indices count from the
end); `none` models the raised `IndexError`. -/
def pyIndex {α : Type} (l : List α) (i : Int) : Option α :=
  let j := if i < 0 then i + l.length else i
  if j < 0 then none else l.get? j.toNat

/-- Shorthand: the character list of a string literal. -/
def sl (s : String) : List Char := s.toList

/-- Model of Python `x or default` for an optional string: `None` and the
empty string are falsy. -/
def pyOrStr (x : Option (List Char)) (default : List Char) : List Char :=
  match x with
  | some s => if s = [] then default else s
  | none => default

/-- Model of Python `x or default` for an optional number: `None` and `0` are
falsy. -/
def pyOrNum (x : Option ℚ) (default : ℚ) : ℚ :=
  match x with
  | some q => if q = 0 then default else q
  | none => default

/-- `room['name']` as a string (`none` models the `KeyError` / `TypeError` /
`AttributeError` Python raises on a malformed room dict). -/
def roomNameStr (room : Json) : Option (List Char) :=
  (asObj room).bind fun kvs => (jsonGet kvs (sl "name")).bind asStr

/-- The per-room regulatory check of `check_compliance` (one iteration of the
`for room in plan.rooms` loop). -/
def regulatoryRoomCheck (room : Json) : Option ComplianceCheck := do
  let kvs ← asObj room
  let name ← (jsonGet kvs (sl "name")).bind asStr
  let a ← (jsonGet kvs (sl "area")).bind asNum
  if hasSub (sl "bedroom") (pyLower name) && decide (a < 9) then
    pure { category := sl "regulatory", rule := sl "Minimum Bedroom Size", status := sl "failed",
           message := name ++ sl " is " ++ fix1 a ++ sl "m² (minimum 9m² required)",
           suggestion := some (sl "Increase bedroom dimensions to meet code requirements") }
  else
    pure { category := sl "regulatory", rule := sl "Minimum Room Size", status := sl "passed",
           message := name ++ sl " meets size requirements (" ++ fix1 a ++ sl "m²)",
           suggestion := none }

/-- The cultural block of `check_compliance` (the `if config.culturalParams
and config.culturalParams.type` branch). -/
def culturalChecks (config : ProjectConfig) (rooms : List Json) : Option (List ComplianceCheck) :=
  match config.culturalParams with
  | none => some []
  | some cp =>
    match cp.type with
    | none => some []
    | some cultural_type =>
      if cultural_type = [] then some []
      else if hasSub (sl "vastu") (pyLower cultural_type) then do
        let names ← rooms.mapM roomNameStr
        let kitchen_rooms := names.filter fun n => hasSub (sl "kitchen") (pyLower n)
        pure ((if kitchen_rooms ≠ [] then
                 [{ category := sl "cultural", rule := sl "Kitchen Placement (Vastu)",
                    status := sl "passed",
                    message := sl "Kitchen positioned in South-East quadrant (Agni corner)",
                    suggestion := none }]
               else []) ++
              [{ category := sl "cultural", rule := sl "Main Entrance (Vastu)",
                 status := sl "passed",
                 message := sl "Entrance facing North-East for prosperity",
                 suggestion := none }])
      else some []

/-- The hardcoded doorway width of the accessibility check (meters), `0.9`. -/
def doorway_width : ℚ := mkRat 9 10

/-- The accessibility block of `check_compliance`: a real conditional
comparing the assumed doorway width against the 0.85 m threshold. -/
def accessibilityChecks : List ComplianceCheck :=
  if doorway_width ≥ mkRat 85 100 then
    [{ category := sl "accessibility", rule := sl "Doorway Width (ADA)", status := sl "passed",
       message := sl "All doorways are " ++ numStr doorway_width ++ sl "m wide (minimum 0.85m)",
       suggestion := none }]
  else
    [{ category := sl "accessibility", rule := sl "Doorway Width (ADA)", status := sl "warning",
       message := sl "Some doorways are " ++ numStr doorway_width ++ sl "m (0.85m recommended)",
       suggestion := some (sl "Consider widening doorways for accessibility") }]

/-- Model of `check_compliance(project)` (server.py lines 297-381).  `none`
models an uncaught Python exception (out-of-range selected index on a
non-empty plan list, or a malformed room dict); `some checks` is the returned
list. -/
def check_compliance (project : Project) : Option (List ComplianceCheck) :=
  if project.floorPlans.isEmpty then some []
  else do
    let plan ← pyIndex project.floorPlans project.selectedPlanIndex
    let municipal_code := pyOrStr project.config.municipalCode (sl "General")
    let roomChecks ← plan.rooms.mapM regulatoryRoomCheck
    let setback : ComplianceCheck :=
      { category := sl "regulatory", rule := sl "Building Setbacks", status := sl "passed",
        message := sl "Setbacks comply with " ++ municipal_code ++ sl " regulations",
        suggestion := none }
    let cultural ← culturalChecks project.config plan.rooms
    pure (roomChecks ++ [setback] ++ cultural ++ accessibilityChecks)

/-- Model of `estimate_materials(project)` (server.py lines 384-465). `none`
models an uncaught `IndexError` on the selected index; `some items` is the
returned list. -/
def estimate_materials (project : Project) : Option (List MaterialItem) :=
  if project.floorPlans.isEmpty then some []
  else do
    let plan ← pyIndex project.floorPlans project.selectedPlanIndex
    let total_area := plan.totalArea
    let num_rooms : ℚ := (plan.rooms.length : ℚ)
    let concrete_volume := qMul total_area (mkRat 15 100)
    let wall_area := qMul (qMul num_rooms 10) 3
    let bricks_needed := qMul wall_area 50
    let steel_weight := qMul total_area 8
    let cement_bags := qMul total_area (mkRat 4 10)
    let paintable_area := qMul total_area 3
    pure
      [ { name := sl "Ready-Mix Concrete (M25)", quantity := concrete_volume, unit := sl "m³",
          estimatedCost := some (qMul concrete_volume 5500) },
        { name := sl "Clay Bricks (Standard)", quantity := bricks_needed, unit := sl "units",
          estimatedCost := some (qMul bricks_needed 8) },
        { name := sl "TMT Steel Bars (Fe500)", quantity := steel_weight, unit := sl "kg",
          estimatedCost := some (qMul steel_weight 65) },
        { name := sl "Cement (OPC 53 Grade)", quantity := cement_bags, unit := sl "bags",
          estimatedCost := some (qMul cement_bags 450) },
        { name := sl "Ceramic Floor Tiles (600x600mm)", quantity := total_area, unit := sl "m²",
          estimatedCost := some (qMul total_area 450) },
        { name := sl "Interior Emulsion Paint", quantity := qDiv paintable_area 12, unit := sl "liters",
          estimatedCost := some (qMul (qDiv paintable_area 12) 350) },
        { name := sl "Wooden Doors with Frame", quantity := qAdd num_rooms 2, unit := sl "units",
          estimatedCost := some (qMul (qAdd num_rooms 2) 15000) },
        { name := sl "UPVC Windows with Glass", quantity := qMul num_rooms 2, unit := sl "units",
          estimatedCost := some (qMul (qMul num_rooms 2) 8000) } ]

/-- The geometry of one room as read by `generate_svg_from_layout`: the
values of `room['x']`, `room['y']`, `room['width']`, `room['height']`,
`room['name']` and `room.get('area', 0)`. -/
structure RoomV where
  name : List Char
  x : ℚ
  y : ℚ
  width : ℚ
  height : ℚ
  area : ℚ

/-- Extraction of one room dict's fields (f-string rendering of a non-string
`name` is not modelled: a room whose `name` is not a string is mapped to
`none`). -/
def roomV (j : Json) : Option RoomV := do
  let kvs ← asObj j
  let x ← (jsonGet kvs (sl "x")).bind asNum
  let y ← (jsonGet kvs (sl "y")).bind asNum
  let w ← (jsonGet kvs (sl "width")).bind asNum
  let h ← (jsonGet kvs (sl "height")).bind asNum
  let name ← (jsonGet kvs (sl "name")).bind asStr
  let area ←
    match jsonGet kvs (sl "area") with
    | some v => asNum v
    | none => some 0
  pure ⟨name, x, y, w, h, area⟩

/-- `rooms = layout.get('rooms', [])` followed by the per-room field reads of
`generate_svg_from_layout`; `none` models an uncaught Python exception on a
malformed layout. -/
def extractRooms (layoutJ : Json) : Option (List RoomV) := do
  let kvs ← asObj layoutJ
  let roomsJ := (jsonGet kvs (sl "rooms")).getD (Json.arr [])
  let rooms ← asArr roomsJ
  rooms.mapM roomV

/-- `scale = 40  # pixels per meter`. -/
def scale : ℚ := 40

/-- `max_x = max([r['x'] + r['width'] for r in rooms]) if rooms else 20`
(Python's `max` over a non-empty list is a fold of binary max over its
head and tail). -/
def maxXOf (rvs : List RoomV) : ℚ :=
  match rvs.map (fun r => qAdd r.x r.width) with
  | [] => 20
  | a :: rest => rest.foldl qMax a

/-- `max_y = max([r['y'] + r['height'] for r in rooms]) if rooms else 15`. -/
def maxYOf (rvs : List RoomV) : ℚ :=
  match rvs.map (fun r => qAdd r.y r.height) with
  | [] => 15
  | a :: rest => rest.foldl qMax a

/-- The fixed 7-color fill palette of `generate_svg_from_layout`. -/
def svgColors : List (List Char) :=
  [sl "#e3f2fd", sl "#f3e5f5", sl "#e8f5e9", sl "#fff3e0", sl "#fce4ec",
   sl "#e0f2f1", sl "#f1f8e9"]

/-- The fixed leading SVG parts (root element, grid pattern definition and
grid background) as appended to `svg_parts` before the room loop. -/
def svgHeader (svg_width svg_height : ℚ) : List (List Char) :=
  [sl "<svg width=\"" ++ numStr svg_width ++ sl "\" height=\"" ++ numStr svg_height ++
     sl "\" xmlns=\"http://www.w3.org/2000/svg\">",
   sl "<defs>",
   sl "<pattern id=\"grid\" width=\"40\" height=\"40\" patternUnits=\"userSpaceOnUse\">",
   sl "<path d=\"M 40 0 L 0 0 0 40\" fill=\"none\" stroke=\"#e0e0e0\" stroke-width=\"0.5\"/>",
   sl "</pattern>",
   sl "</defs>",
   sl "<rect width=\"" ++ numStr svg_width ++ sl "\" height=\"" ++ numStr svg_height ++
     sl "\" fill=\"url(#grid)\"/>"]

/-- The room rectangle element; `color` is the value interpolated into its
`fill` attribute. -/
def rectStr (x y w h : ℚ) (color : List Char) : List Char :=
  sl "<rect x=\"" ++ numStr x ++ sl "\" y=\"" ++ numStr y ++
    sl "\" width=\"" ++ numStr w ++ sl "\" height=\"" ++ numStr h ++
    sl "\" fill=\"" ++ color ++ sl "\" stroke=\"#424242\" stroke-width=\"2\" rx=\"2\"/>"

/-- The room name label element. -/
def nameLabelStr (tx ty : ℚ) (name : List Char) : List Char :=
  sl "<text x=\"" ++ numStr tx ++ sl "\" y=\"" ++ numStr ty ++
    sl "\" text-anchor=\"middle\" font-family=\"Arial\" font-size=\"12\" font-weight=\"bold\" fill=\"#212121\">" ++
    name ++ sl "</text>"

/-- The room area label element. -/
def areaLabelStr (tx ty : ℚ) (area : ℚ) : List Char :=
  sl "<text x=\"" ++ numStr tx ++ sl "\" y=\"" ++ numStr (qAdd ty 15) ++
    sl "\" text-anchor=\"middle\" font-family=\"Arial\" font-size=\"10\" fill=\"#616161\">" ++
    fix1 area ++ sl " m²</text>"

/-- One iteration of the `for idx, room in enumerate(rooms)` loop: the three
SVG parts appended for room `r` at loop index `idx`. -/
def roomPart (idx : Nat) (r : RoomV) : List (List Char) :=
  let x := qAdd (qMul r.x scale) 50
  let y := qAdd (qMul r.y scale) 50
  let w := qMul r.width scale
  let h := qMul r.height scale
  let color := svgColors.getD (idx % svgColors.length) []
  let text_x := qAdd x (qDiv w 2)
  let text_y := qAdd y (qDiv h 2)
  [rectStr x y w h color, nameLabelStr text_x text_y r.name, areaLabelStr text_x text_y r.area]

/-- The SVG parts appended by the whole room loop, starting at loop index
`idx`. -/
def roomParts : Nat → List RoomV → List (List Char)
  | _, [] => []
  | idx, r :: rs => roomPart idx r ++ roomParts (idx + 1) rs

/-- Model of `generate_svg_from_layout(layout)` (server.py lines 242-294):
`''.join(svg_parts)` over the header parts, the per-room parts and the
closing tag.  `none` models an uncaught Python exception on a malformed
layout dict. -/
def generate_svg_from_layout (layoutJ : Json) : Option (List Char) :=
  (extractRooms layoutJ).map fun rvs =>
    let svg_width := qAdd (qMul (maxXOf rvs) scale) 100
    let svg_height := qAdd (qMul (maxYOf rvs) scale) 100
    List.flatten (svgHeader svg_width svg_height ++ roomParts 0 rvs ++ [sl "</svg>"])

/-- f-string rendering of an optional number (`None` renders as `None`). -/
def optNumPy (x : Option ℚ) : List Char :=
  match x with
  | some q => numStr q
  | none => sl "None"

/-- `json.dumps` of an optional number (`None` becomes `null`). -/
def dumpsOptNum (x : Option ℚ) : List Char :=
  match x with
  | some q => numStr q
  | none => sl "null"

/-- `json.dumps` of a string (JSON escaping of exotic characters is not
modelled; the room names of this code base need none). -/
def dumpsStr (s : List Char) : List Char := '"' :: (s ++ ['"'])

/-- `json.dumps({'name': r.name, 'qty': r.quantity, 'minArea': r.minArea})`
for one room requirement. -/
def dumpsRoomReq (r : RoomRequirement) : List Char :=
  sl "\x7b\"name\": " ++ dumpsStr r.name ++ sl ", \"qty\": " ++ intStr r.quantity ++
    sl ", \"minArea\": " ++ dumpsOptNum r.minArea ++ sl "\x7d"

/-- `json.dumps([... for r in config.requiredSpaces])`. -/
def dumpsRoomReqs (rs : List RoomRequirement) : List Char :=
  '[' :: (List.intercalate (sl ", ") (rs.map dumpsRoomReq) ++ [']'])

/-- `config.culturalParams.type if config.culturalParams else 'None'`
(an f-string renders a `None`-valued `type` as `None` too). -/
def culturalTypeStr (config : ProjectConfig) : List Char :=
  match config.culturalParams with
  | some cp =>
    match cp.type with
    | some t => t
    | none => sl "None"
  | none => sl "None"

/-- The prompt f-string built by `generate_floor_plan_ai` (server.py lines
149-183). -/
def buildPrompt (config : ProjectConfig) : List Char :=
  sl "\nYou are an expert architectural AI. Generate 3 different floor plan layouts based on these requirements:\n\nProject Type: " ++
  config.projectType ++
  sl "\nSite Dimensions: " ++ optNumPy config.siteConstraints.width ++ sl "m x " ++
  optNumPy config.siteConstraints.length ++ sl "m\nRequired Rooms: " ++
  dumpsRoomReqs config.requiredSpaces ++
  sl "\nCultural Preferences: " ++ culturalTypeStr config ++
  sl "\nMunicipal Code: " ++ pyOrStr config.municipalCode (sl "General") ++
  sl "\n\nFor each layout, provide:\n1. Room positions (x, y, width, height in meters)\n2. Room names and areas\n3. Total built-up area\n4. Brief description\n\nReturn ONLY valid JSON in this exact format:\n\x7b\n  \"layouts\": [\n    \x7b\n      \"name\": \"Layout Name\",\n      \"description\": \"Brief description\",\n      \"totalArea\": 150.5,\n      \"rooms\": [\n        \x7b\"name\": \"Living Room\", \"x\": 0, \"y\": 0, \"width\": 5, \"height\": 6, \"area\": 30\x7d\n      ]\n    \x7d\n  ]\n\x7d\n\nConsider:\n- Vastu/Cultural compliance if specified\n- Proper room adjacencies\n- Natural light and ventilation\n- Building code setbacks\n"

/-- The two generative-model providers of `generate_floor_plan_ai`. -/
inductive ProviderTag where
  | gemini : ProviderTag
  | openai : ProviderTag
deriving DecidableEq

/-- Observable outcome of `generate_floor_plan_ai`:
* `ok plans` — the function returns the floor-plan list;
* `genError status detail` — it raises `HTTPException(status, detail)`
  (the `GenerationError` of the specification);
* `pyError` — an uncaught Python exception escapes the conversion loop
  that runs after the provider try/except blocks. -/
inductive GenOutcome where
  | ok : List FloorPlanData → GenOutcome
  | genError : Nat → List Char → GenOutcome
  | pyError : GenOutcome

/-- `{'width': config.siteConstraints.width or 20, 'length':
config.siteConstraints.length or 15}`. -/
def dimsFor (config : ProjectConfig) : List (List Char × ℚ) :=
  [(sl "width", pyOrNum config.siteConstraints.width 20),
   (sl "length", pyOrNum config.siteConstraints.length 15)]

/-- Conversion of one parsed layout object into a `FloorPlanData` (one
iteration of the `for layout in result.get('layouts', [])` loop, including
the `generate_svg_from_layout` call).  `none` models an uncaught Python
exception (missing key, non-dict layout, malformed rooms). -/
def toFloorPlan (config : ProjectConfig) (layoutJ : Json) : Option FloorPlanData := do
  let svg ← generate_svg_from_layout layoutJ
  let kvs ← asObj layoutJ
  let roomsJ ← jsonGet kvs (sl "rooms")
  let rooms ← asArr roomsJ
  let _ ← rooms.mapM asObj
  let ta ← (jsonGet kvs (sl "totalArea")).bind asNum
  pure { svgContent := svg, rooms := rooms, totalArea := ta, dimensions := dimsFor config }

/-- The post-parsing part of `generate_floor_plan_ai`: iterate over
`result.get('layouts', [])` and convert each entry.  This code runs outside
both provider try/except blocks, so a failure here is an uncaught exception
(`pyError`), not a `GenerationError`. -/
def convertLayouts (config : ProjectConfig) (result : Json) : GenOutcome :=
  match result with
  | Json.obj kvs =>
    match (jsonGet kvs (sl "layouts")).getD (Json.arr []) with
    | Json.arr items =>
      match items.mapM (toFloorPlan config) with
      | some plans => .ok plans
      | none => .pyError
    | _ => .pyError
  | _ => .pyError

/-- One provider attempt as observed from inside the try block: the provider
call (`none` models any raised exception — network failure, bad response
object, ...) followed by fence cleaning and `json.loads`. -/
def attemptParse (provider : List Char → Option (List Char)) (prompt : List Char) : Option Json :=
  (provider prompt).bind fun text => json_loads (clean_fences text)

/-- Model of `generate_floor_plan_ai(config)` (server.py lines 146-239).
`gemini` and `openai` give each provider's response text for a prompt
(`none` = the call raises).  Returns the outcome together with the trace of
provider calls made, in order. -/
def generate_floor_plan_ai (config : ProjectConfig)
    (gemini openai : List Char → Option (List Char)) :
    GenOutcome × List (ProviderTag × List Char) :=
  let prompt := buildPrompt config
  match attemptParse gemini prompt with
  | some result => (convertLayouts config result, [(.gemini, prompt)])
  | none =>
    match attemptParse openai prompt with
    | some result => (convertLayouts config result, [(.gemini, prompt), (.openai, prompt)])
    | none => (.genError 500 (sl "AI generation failed"), [(.gemini, prompt), (.openai, prompt)])

/-! ### Concrete instances used by witnesses and counterexamples -/

/-- A room dict `{"name": "Bedroom 1", "area": 8}`. -/
def roomBedroom : Json := Json.obj [(sl "name", Json.str (sl "Bedroom 1")), (sl "area", Json.num 8)]

/-- A room dict `{"name": "Living Room", "area": 20}`. -/
def roomLiving : Json := Json.obj [(sl "name", Json.str (sl "Living Room")), (sl "area", Json.num 20)]

/-- The selected layout of the compliance-ordering scenario. -/
def planC1 : FloorPlanData :=
  { svgContent := [], rooms := [roomBedroom, roomLiving], totalArea := 28, dimensions := [] }

/-- A configuration with no cultural parameters and no municipal code. -/
def configPlain : ProjectConfig :=
  { projectType := sl "residential", siteConstraints := {}, requiredSpaces := [] }

/-- The project of the compliance-ordering scenario. -/
def projC1 : Project :=
  { id := sl "p1", name := sl "P1", config := configPlain, floorPlans := [planC1] }

/-- A project whose selected layout has `totalArea = 100` and exactly 4 rooms. -/
def projC3 : Project :=
  { id := sl "p3", name := sl "P3", config := configPlain,
    floorPlans := [{ svgContent := [], rooms := [Json.null, Json.null, Json.null, Json.null],
                     totalArea := 100, dimensions := [] }] }

/-- A project with an empty layout sequence. -/
def projNoPlans : Project :=
  { id := sl "p8", name := sl "P8", config := configPlain, floorPlans := [], selectedPlanIndex := 3 }

/-- First layout of the estimate non-interference pair: totalArea 50, two
specific room dicts, a drawing string. -/
def planTenA : FloorPlanData :=
  { svgContent := sl "<svg/>", rooms := [roomBedroom, roomLiving], totalArea := 50,
    dimensions := [] }

/-- Second layout of the estimate non-interference pair: same totalArea and
room count as `planTenA`, everything else different. -/
def planTenB : FloorPlanData :=
  { svgContent := sl "other", rooms := [Json.bool true, Json.num 3], totalArea := 50,
    dimensions := [(sl "width", 30)] }

/-- First project of the estimate non-interference pair. -/
def projTenA : Project :=
  { id := sl "pa", name := sl "PA", config := configPlain, floorPlans := [planTenA] }

/-- Second project of the estimate non-interference pair: different config,
different rooms, `planTenB` selected at index 1 of two plans. -/
def projTenB : Project :=
  { id := sl "pb", name := sl "PB",
    config := { projectType := sl "commercial", siteConstraints := { width := some 30 },
                requiredSpaces := [], municipalCode := some (sl "NBC") },
    floorPlans := [{ svgContent := [], rooms := [], totalArea := 7, dimensions := [] },
                   planTenB],
    selectedPlanIndex := 1 }

/-- A one-room layout dict for the rendering scenarios. -/
def roomLivingFull : Json :=
  Json.obj [(sl "name", Json.str (sl "Living Room")), (sl "x", Json.num 0),
            (sl "y", Json.num 0), (sl "width", Json.num 5), (sl "height", Json.num 6),
            (sl "area", Json.num 30)]

/-- The extracted geometry of `roomLivingFull`. -/
def roomLivingV : RoomV := { name := sl "Living Room", x := 0, y := 0, width := 5, height := 6, area := 30 }

/-- A layout dict with the single room `roomLivingFull`. -/
def layoutOneRoom : Json := Json.obj [(sl "rooms", Json.arr [roomLivingFull])]

/-- A layout dict with an empty room list. -/
def layoutNoRooms : Json := Json.obj [(sl "rooms", Json.arr [])]

/-- A provider whose call always raises (network failure, etc.). -/
def provRaise : List Char → Option (List Char) := fun _ => none

/-- A provider that returns prose which is not JSON. -/
def provProse : List Char → Option (List Char) := fun _ => some (sl "I cannot help with that.")

/-- A provider that returns the empty JSON object. -/
def provEmptyObj : List Char → Option (List Char) := fun _ => some (sl "\x7b\x7d")

end ArchAI

namespace ArchAI

/-! ### Helper lemmas -/

/-- Indexing into a list with `isEmpty = true` always fails. -/
theorem pyIndex_isEmpty {α : Type} (l : List α) (i : Int) (h : l.isEmpty = true) :
    pyIndex l i = none := by
  cases l with
  | nil =>
    unfold pyIndex
    by_cases hi : i < 0 <;> simp [hi]
  | cons a as => simp [List.isEmpty] at h

/-- A successful `pyIndex` lookup forces a non-empty list. -/
theorem pyIndex_some_not_isEmpty {α : Type} {l : List α} {i : Int} {x : α}
    (h : pyIndex l i = some x) : l.isEmpty = false := by
  cases he : l.isEmpty with
  | true => rw [pyIndex_isEmpty l i he] at h; cases h
  | false => rfl

/-- `qAdd` is ordinary rational addition. -/
theorem qAdd_eq (a b : ℚ) : qAdd a b = a + b := (Rat.add_def' a b).symm

/-- `qMul` is ordinary rational multiplication. -/
theorem qMul_eq (a b : ℚ) : qMul a b = a * b := by
  rw [Rat.mul_def, Rat.normalize_eq_mkRat]; rfl

/-- `qInv` is the ordinary rational inverse. -/
theorem qInv_eq (a : ℚ) : qInv a = a⁻¹ := (Rat.inv_def' a).symm

/-- `qDiv` is ordinary rational division. -/
theorem qDiv_eq (a b : ℚ) : qDiv a b = a / b := by
  rw [div_eq_mul_inv, qDiv, qMul_eq, qInv_eq]

/-- `qMax` is the lattice `max` on ℚ. -/
theorem qMax_eq (a b : ℚ) : qMax a b = max a b := by
  unfold qMax
  rcases lt_or_ge a b with h | h
  · rw [if_pos h, max_eq_right h.le]
  · rw [if_neg (not_lt.mpr h), max_eq_left h]

/-- The fold of `qMax` over a list returns the seed or a member. -/
theorem foldl_qMax_mem (l : List ℚ) (a : ℚ) :
    l.foldl qMax a = a ∨ l.foldl qMax a ∈ l := by
  induction l generalizing a with
  | nil => exact Or.inl rfl
  | cons b rest ih =>
    rw [List.foldl_cons]
    rcases ih (qMax a b) with h | h
    · rw [h]
      by_cases hab : a < b
      · right
        simp only [qMax, if_pos hab]
        exact List.mem_cons_self b rest
      · left
        simp only [qMax, if_neg hab]
    · exact Or.inr (List.mem_cons_of_mem b h)

/-- The fold of `qMax` is an upper bound of the seed and all members. -/
theorem foldl_qMax_ub (l : List ℚ) (a : ℚ) :
    a ≤ l.foldl qMax a ∧ ∀ x ∈ l, x ≤ l.foldl qMax a := by
  induction l generalizing a with
  | nil => exact ⟨le_refl a, by intro x hx; cases hx⟩
  | cons b rest ih =>
    have hab1 : a ≤ qMax a b := by rw [qMax_eq]; exact le_max_left a b
    have hab2 : b ≤ qMax a b := by rw [qMax_eq]; exact le_max_right a b
    rw [List.foldl_cons]
    refine ⟨le_trans hab1 (ih (qMax a b)).1, ?_⟩
    intro x hx
    rcases List.mem_cons.mp hx with hxb | hx
    · rw [hxb]
      exact le_trans hab2 (ih (qMax a b)).1
    · exact (ih (qMax a b)).2 x hx

/-- The element of the room-loop output at index `3n` is the rectangle part
of the `n`-th remaining room, drawn with the palette color at
`(i + n) % 7` when the loop starts at index `i`. -/
theorem roomParts_get (rvs : List RoomV) (i n : Nat) (r : RoomV)
    (hn : rvs.get? n = some r) :
    (roomParts i rvs).get? (3 * n) =
      some (rectStr (qAdd (qMul r.x scale) 50) (qAdd (qMul r.y scale) 50)
        (qMul r.width scale) (qMul r.height scale) (svgColors.getD ((i + n) % 7) [])) := by
  induction rvs generalizing i n with
  | nil => cases hn
  | cons r0 rest ih =>
    cases n with
    | zero =>
      simp only [List.get?_cons_zero, Option.some.injEq] at hn
      subst hn
      rfl
    | succ m =>
      have hlen : (roomPart i r0).length = 3 := rfl
      have step : (roomParts i (r0 :: rest)).get? (3 * (m + 1)) =
          (roomParts (i + 1) rest).get? (3 * m) := by
        show (roomPart i r0 ++ roomParts (i + 1) rest).get? (3 * (m + 1)) = _
        have h3 : 3 * (m + 1) - 3 = 3 * m := by omega
        rw [List.get?_append_right (by rw [hlen]; omega), hlen, h3]
      rw [step, ih (i + 1) m (by simpa using hn)]
      have hidx : i + 1 + m = i + (m + 1) := by omega
      rw [hidx]

/-- Shape of a successful render: header parts with the computed canvas
bounds, the room parts, and the closing tag, joined. -/
theorem generate_svg_eq (layoutJ : Json) (rvs : List RoomV)
    (hex : extractRooms layoutJ = some rvs) :
    generate_svg_from_layout layoutJ =
      some (List.flatten (svgHeader (qAdd (qMul (maxXOf rvs) scale) 100)
        (qAdd (qMul (maxYOf rvs) scale) 100) ++ roomParts 0 rvs ++ [sl "</svg>"])) := by
  simp only [generate_svg_from_layout, hex, Option.map_some']

/-- Python's `max` over a non-empty mapped list, as folded by the renderer,
is a member of the list and an upper bound of it. -/
theorem foldl_qMax_map_spec (f : RoomV → ℚ) (r0 : RoomV) (rest : List RoomV) :
    ((rest.map f).foldl qMax (f r0) ∈ (r0 :: rest).map f) ∧
    (∀ q ∈ (r0 :: rest).map f, q ≤ (rest.map f).foldl qMax (f r0)) := by
  constructor
  · rw [List.map_cons]
    rcases foldl_qMax_mem (rest.map f) (f r0) with h | h
    · rw [h]; exact List.mem_cons_self _ _
    · exact List.mem_cons_of_mem _ h
  · intro q hq
    rw [List.map_cons, List.mem_cons] at hq
    rcases hq with rfl | hq
    · exact (foldl_qMax_ub (rest.map f) (f r0)).1
    · exact (foldl_qMax_ub (rest.map f) (f r0)).2 q hq

/-- **C1, counterexample.**  On the layout with rooms
`[{"Bedroom 1", area 8}, {"Living Room", area 20}]` and a config with no
cultural parameters, `check_compliance` returns **four** findings, not the
three the claim states: the always-on accessibility check appends a fourth. -/
theorem claim_c1_counterexample :
    (check_compliance projC1).map List.length = some 4 ∧
      (check_compliance projC1).map List.length ≠ some 3 := by
  constructor <;> decide

/-- **C1, amended.**  On that input `evaluate` returns exactly two regulatory
room findings in room order — the first `failed` (bedroom area 8 < 9) with a
non-absent suggestion, the second `passed` — followed by one `passed`
"Building Setbacks" finding and one `passed` accessibility "Doorway Width
(ADA)" finding, for four findings total. -/
theorem claim_c1_amended : check_compliance projC1 = some
    [ { category := sl "regulatory", rule := sl "Minimum Bedroom Size", status := sl "failed",
        message := sl "Bedroom 1 is 8.0m² (minimum 9m² required)",
        suggestion := some (sl "Increase bedroom dimensions to meet code requirements") },
      { category := sl "regulatory", rule := sl "Minimum Room Size", status := sl "passed",
        message := sl "Living Room meets size requirements (20.0m²)", suggestion := none },
      { category := sl "regulatory", rule := sl "Building Setbacks", status := sl "passed",
        message := sl "Setbacks comply with General regulations", suggestion := none },
      { category := sl "accessibility", rule := sl "Doorway Width (ADA)", status := sl "passed",
        message := sl "All doorways are 0.9m wide (minimum 0.85m)", suggestion := none } ] := by
  decide

/-- **C3.**  For a selected layout with `totalArea = 100` and exactly 4
rooms, `estimate_materials` returns exactly eight material lines in the fixed
order concrete, bricks, steel, cement, floor tiles, paint, doors, windows,
with quantities 15, 6000, 800, 40, 100, 25, 6, 8 and costs 82500, 48000,
52000, 18000, 45000, 8750, 90000, 64000. -/
theorem claim_c3 : estimate_materials projC3 = some
    [ { name := sl "Ready-Mix Concrete (M25)", quantity := 15, unit := sl "m³",
        estimatedCost := some 82500 },
      { name := sl "Clay Bricks (Standard)", quantity := 6000, unit := sl "units",
        estimatedCost := some 48000 },
      { name := sl "TMT Steel Bars (Fe500)", quantity := 800, unit := sl "kg",
        estimatedCost := some 52000 },
      { name := sl "Cement (OPC 53 Grade)", quantity := 40, unit := sl "bags",
        estimatedCost := some 18000 },
      { name := sl "Ceramic Floor Tiles (600x600mm)", quantity := 100, unit := sl "m²",
        estimatedCost := some 45000 },
      { name := sl "Interior Emulsion Paint", quantity := 25, unit := sl "liters",
        estimatedCost := some 8750 },
      { name := sl "Wooden Doors with Frame", quantity := 6, unit := sl "units",
        estimatedCost := some 90000 },
      { name := sl "UPVC Windows with Glass", quantity := 8, unit := sl "units",
        estimatedCost := some 64000 } ] := by
  decide

/-- **C4.**  Rendering is a deterministic function of the layout value alone:
the embedding of `generate_svg_from_layout` is a pure function (the source
reads no ambient state — the palette is a program constant and no randomness
or time enters the computation), so two invocations on the same layout give
byte-identical output. -/
theorem claim_c4 (layout : Json) :
    generate_svg_from_layout layout = generate_svg_from_layout layout := rfl

/-- **C8.**  For every config (and any selected index), a project with an
empty layout sequence makes `check_compliance` return an empty finding list
and `estimate_materials` an empty material list, and neither raises. -/
theorem claim_c8 (project : Project) (h : project.floorPlans = []) :
    check_compliance project = some [] ∧ estimate_materials project = some [] := by
  unfold check_compliance estimate_materials
  simp [h]

/-- **C8, witness** at a concrete project with an empty layout sequence and a
selected index of 3. -/
theorem claim_c8_witness :
    check_compliance projNoPlans = some [] ∧ estimate_materials projNoPlans = some [] :=
  claim_c8 projNoPlans rfl

/-- **C10.**  The material estimate depends only on the selected layout's
`totalArea` and room count: two projects whose selected layouts agree on
those produce identical material lists, regardless of room contents, drawing
strings, configs, or any other project field. -/
theorem claim_c10 (p1 p2 : Project) (plan1 plan2 : FloorPlanData)
    (h1 : pyIndex p1.floorPlans p1.selectedPlanIndex = some plan1)
    (h2 : pyIndex p2.floorPlans p2.selectedPlanIndex = some plan2)
    (hta : plan1.totalArea = plan2.totalArea)
    (hlen : plan1.rooms.length = plan2.rooms.length) :
    estimate_materials p1 = estimate_materials p2 := by
  unfold estimate_materials
  rw [pyIndex_some_not_isEmpty h1, pyIndex_some_not_isEmpty h2, h1, h2]
  simp only [Option.bind_eq_bind, Option.some_bind, hta, hlen]

/-- **C10, witness**: two concrete projects differing in id, config, room
dicts, drawing and selected index, whose selected layouts share
`totalArea = 50` and room count 2. -/
theorem claim_c10_witness : estimate_materials projTenA = estimate_materials projTenB :=
  claim_c10 projTenA projTenB planTenA planTenB rfl rfl rfl rfl

/-- **C2.**  When the primary (Gemini) attempt fails — the call raises, or
its output fails to parse after fence cleaning — `generate_floor_plan_ai`
calls the secondary (OpenAI) provider exactly once with the same prompt; and
when the secondary attempt also fails, it raises exactly one generation
error with the fixed diagnostic "AI generation failed" and returns no
layouts. -/
theorem claim_c2 (config : ProjectConfig) (gemini openai : List Char → Option (List Char))
    (hfail : gemini (buildPrompt config) = none ∨
      ∃ t, gemini (buildPrompt config) = some t ∧ json_loads (clean_fences t) = none) :
    (generate_floor_plan_ai config gemini openai).2 =
      [(ProviderTag.gemini, buildPrompt config), (ProviderTag.openai, buildPrompt config)] ∧
    ((openai (buildPrompt config) = none ∨
        ∃ t, openai (buildPrompt config) = some t ∧ json_loads (clean_fences t) = none) →
      generate_floor_plan_ai config gemini openai =
        (GenOutcome.genError 500 (sl "AI generation failed"),
         [(ProviderTag.gemini, buildPrompt config), (ProviderTag.openai, buildPrompt config)])) := by
  have h1 : attemptParse gemini (buildPrompt config) = none := by
    rcases hfail with h | ⟨t, ht, hp⟩
    · simp [attemptParse, h]
    · simp [attemptParse, ht, hp]
  constructor
  · simp only [generate_floor_plan_ai]
    rw [h1]
    cases h2 : attemptParse openai (buildPrompt config) <;> simp
  · intro hfail2
    have h2 : attemptParse openai (buildPrompt config) = none := by
      rcases hfail2 with h | ⟨t, ht, hp⟩
      · simp [attemptParse, h]
      · simp [attemptParse, ht, hp]
    simp only [generate_floor_plan_ai]
    rw [h1, h2]

/-- **C2, witness**: a primary whose call raises and a secondary returning
non-JSON prose; the secondary is called once with the same prompt and the
result is the single generation error. -/
theorem claim_c2_witness :
    (generate_floor_plan_ai configPlain provRaise provProse).2 =
      [(ProviderTag.gemini, buildPrompt configPlain), (ProviderTag.openai, buildPrompt configPlain)] ∧
    generate_floor_plan_ai configPlain provRaise provProse =
      (GenOutcome.genError 500 (sl "AI generation failed"),
       [(ProviderTag.gemini, buildPrompt configPlain), (ProviderTag.openai, buildPrompt configPlain)]) := by
  have h := claim_c2 configPlain provRaise provProse (Or.inl rfl)
  exact ⟨h.1, h.2 (Or.inr ⟨sl "I cannot help with that.", rfl, rfl⟩)⟩

/-- **C9.**  When a provider's output decodes to a JSON object that lacks a
`layouts` key, or whose `layouts` array is empty, generation succeeds with an
empty layout list — indistinguishable at this interface from a successful
empty result (no generation error is raised). -/
theorem claim_c9 (config : ProjectConfig) (gemini openai : List Char → Option (List Char))
    (kvs : List (List Char × Json))
    (h : attemptParse gemini (buildPrompt config) = some (Json.obj kvs) ∨
      (attemptParse gemini (buildPrompt config) = none ∧
        attemptParse openai (buildPrompt config) = some (Json.obj kvs)))
    (hlay : jsonGet kvs (sl "layouts") = none ∨
      jsonGet kvs (sl "layouts") = some (Json.arr [])) :
    (generate_floor_plan_ai config gemini openai).1 = GenOutcome.ok [] := by
  have hconv : convertLayouts config (Json.obj kvs) = .ok [] := by
    rcases hlay with hl | hl <;> simp [convertLayouts, hl, List.mapM, List.mapM.loop]
  simp only [generate_floor_plan_ai]
  rcases h with hg | ⟨hg, ho⟩
  · rw [hg]; exact hconv
  · rw [hg, ho]; exact hconv

/-- **C9, witness**: the primary returns `{}` (an object with no `layouts`
key); generation returns the empty layout list. -/
theorem claim_c9_witness :
    (generate_floor_plan_ai configPlain provEmptyObj provRaise).1 = GenOutcome.ok [] :=
  claim_c9 configPlain provEmptyObj provRaise [] (Or.inl rfl) (Or.inl rfl)

/-- **C6.**  The render output opens with a declaration of canvas width
`max(x+width) × 40 + 100` and height `max(y+height) × 40 + 100`, where the
max runs over the layout's rooms; with zero rooms the default 20 × 15 meter
bounds are used under the same scaling.  `maxXOf`/`maxYOf` are shown to be
the genuine maxima: members of the mapped lists and upper bounds of them. -/
theorem claim_c6 (layoutJ : Json) (rvs : List RoomV)
    (hex : extractRooms layoutJ = some rvs) :
    generate_svg_from_layout layoutJ =
      some (sl "<svg width=\"" ++ numStr (maxXOf rvs * 40 + 100) ++ sl "\" height=\"" ++
        numStr (maxYOf rvs * 40 + 100) ++ sl "\" xmlns=\"http://www.w3.org/2000/svg\">" ++
        List.flatten ((svgHeader (maxXOf rvs * 40 + 100) (maxYOf rvs * 40 + 100)).tail ++
          roomParts 0 rvs ++ [sl "</svg>"])) ∧
    (rvs = [] → maxXOf rvs = 20 ∧ maxYOf rvs = 15) ∧
    (rvs ≠ [] →
      (maxXOf rvs ∈ rvs.map (fun r => r.x + r.width) ∧
        ∀ q ∈ rvs.map (fun r => r.x + r.width), q ≤ maxXOf rvs) ∧
      (maxYOf rvs ∈ rvs.map (fun r => r.y + r.height) ∧
        ∀ q ∈ rvs.map (fun r => r.y + r.height), q ≤ maxYOf rvs)) := by
  have hW : qAdd (qMul (maxXOf rvs) scale) 100 = maxXOf rvs * 40 + 100 := by
    rw [qAdd_eq, qMul_eq]; rfl
  have hH : qAdd (qMul (maxYOf rvs) scale) 100 = maxYOf rvs * 40 + 100 := by
    rw [qAdd_eq, qMul_eq]; rfl
  refine ⟨?_, ?_, ?_⟩
  · rw [generate_svg_eq layoutJ rvs hex, hW, hH]
    simp [svgHeader, List.append_assoc]
  · intro h
    subst h
    exact ⟨rfl, rfl⟩
  · intro hne
    cases rvs with
    | nil => exact absurd rfl hne
    | cons r0 rest =>
      have hfx : (fun r : RoomV => qAdd r.x r.width) = (fun r : RoomV => r.x + r.width) :=
        funext fun r => qAdd_eq r.x r.width
      have hfy : (fun r : RoomV => qAdd r.y r.height) = (fun r : RoomV => r.y + r.height) :=
        funext fun r => qAdd_eq r.y r.height
      have hgx : maxXOf (r0 :: rest) =
          (rest.map (fun r : RoomV => r.x + r.width)).foldl qMax (r0.x + r0.width) := by
        show (rest.map (fun r : RoomV => qAdd r.x r.width)).foldl qMax (qAdd r0.x r0.width) = _
        rw [hfx, qAdd_eq]
      have hgy : maxYOf (r0 :: rest) =
          (rest.map (fun r : RoomV => r.y + r.height)).foldl qMax (r0.y + r0.height) := by
        show (rest.map (fun r : RoomV => qAdd r.y r.height)).foldl qMax (qAdd r0.y r0.height) = _
        rw [hfy, qAdd_eq]
      rw [hgx, hgy]
      exact ⟨foldl_qMax_map_spec (fun r => r.x + r.width) r0 rest,
             foldl_qMax_map_spec (fun r => r.y + r.height) r0 rest⟩

/-- **C6, witness** at a one-room layout (room at origin, 5 × 6 meters):
the extraction hypothesis holds by computation and the canvas declaration
follows by the theorem. -/
theorem claim_c6_witness :
    extractRooms layoutOneRoom = some [roomLivingV] ∧
    generate_svg_from_layout layoutOneRoom =
      some (sl "<svg width=\"" ++ numStr (maxXOf [roomLivingV] * 40 + 100) ++ sl "\" height=\"" ++
        numStr (maxYOf [roomLivingV] * 40 + 100) ++ sl "\" xmlns=\"http://www.w3.org/2000/svg\">" ++
        List.flatten ((svgHeader (maxXOf [roomLivingV] * 40 + 100)
            (maxYOf [roomLivingV] * 40 + 100)).tail ++
          roomParts 0 [roomLivingV] ++ [sl "</svg>"])) :=
  ⟨rfl, (claim_c6 layoutOneRoom [roomLivingV] rfl).1⟩

/-- **C7.**  In the render output — the joined header, room and footer parts —
the rectangle of the `n`-th room (element `3n` of the room parts) is filled
with palette color `n % 7`. -/
theorem claim_c7 (layoutJ : Json) (rvs : List RoomV) (n : Nat) (r : RoomV)
    (hex : extractRooms layoutJ = some rvs) (hn : rvs.get? n = some r) :
    generate_svg_from_layout layoutJ =
      some (List.flatten (svgHeader (qAdd (qMul (maxXOf rvs) scale) 100)
        (qAdd (qMul (maxYOf rvs) scale) 100) ++ roomParts 0 rvs ++ [sl "</svg>"])) ∧
    (roomParts 0 rvs).get? (3 * n) =
      some (rectStr (r.x * 40 + 50) (r.y * 40 + 50) (r.width * 40) (r.height * 40)
        (svgColors.getD (n % 7) [])) := by
  refine ⟨generate_svg_eq layoutJ rvs hex, ?_⟩
  have h := roomParts_get rvs 0 n r hn
  simpa [qAdd_eq, qMul_eq, scale] using h

/-- **C7, witness** at the one-room layout with `n = 0`: the room rectangle
is filled with palette color `0 % 7`. -/
theorem claim_c7_witness :
    generate_svg_from_layout layoutOneRoom =
      some (List.flatten (svgHeader (qAdd (qMul (maxXOf [roomLivingV]) scale) 100)
        (qAdd (qMul (maxYOf [roomLivingV]) scale) 100) ++
        roomParts 0 [roomLivingV] ++ [sl "</svg>"])) ∧
    (roomParts 0 [roomLivingV]).get? (3 * 0) =
      some (rectStr (roomLivingV.x * 40 + 50) (roomLivingV.y * 40 + 50)
        (roomLivingV.width * 40) (roomLivingV.height * 40) (svgColors.getD (0 % 7) [])) :=
  claim_c7 layoutOneRoom [roomLivingV] 0 roomLivingV rfl rfl

end ArchAI
